import Mathlib

/-!
# Verification of the warp-distribution registry (`src/python/core/warp/distr.py`)

This file is a shallow embedding of the registry module that declares the
distributions checked by the Chi^2 conformance tester.  Python dictionaries
and lists are modelled as records carrying an explicit allocation id
(`dictRef` / `paramsRef`), so that object identity — and hence observability
of mutation across entries — is expressible.  Numeric float constants are
modelled as exact rationals; `np.pi` becomes the rational
`3.141592653589793` standing for the float64 value of `np.pi`.

External collaborators (the `warp.*` sampling routines, the chi2 adapters,
the `Linear2D0`/`Linear2D2` hierarchical warps, the bitmap loader and the
file resolver) are not part of the source file; where a claim depends on
them they are modelled abstractly, as noted at each definition.
-/

/-- The float64 value of `np.pi`, as the rational its decimal literal denotes. -/
def np_pi : ℚ := 3.141592653589793

/-- One declared parameter of a test case: `(label, [min, max, default])`. -/
structure Param where
  label : String
  min : ℚ
  max : ℚ
  default : ℚ
deriving DecidableEq, Repr

/-- The settings dictionary of a registry entry.  `dictRef` is the identity
of the dict object itself; `paramsRef` is the identity of the list object
stored under the `'parameters'` key.  Shared ids mean shared (aliased)
mutable Python objects. -/
structure SettingsObj where
  dictRef : Nat
  sample_dim : Nat
  ires : Nat
  res : Nat
  paramsRef : Nat
  parameters : List Param
deriving DecidableEq, Repr

/-- The domain adapters from `chi2.py` used by the registry
(construction parameters only; binning behavior is external). -/
inductive Domain where
  | PlanarDomain (bounds : Option ((ℚ × ℚ) × (ℚ × ℚ)))
  | SphericalDomain
  | LineDomain (lo hi : ℚ)
deriving DecidableEq, Repr

/-- One registry entry: name, domain and settings.  The `(sample, density)`
function pair is modelled separately (see `directDistributions` and the
hierarchical-warp builders), since the pairs are heterogeneous. -/
structure Entry where
  name : String
  domain : Domain
  settings : SettingsObj
deriving DecidableEq, Repr

/-- `DEFAULT_SETTINGS   = {'sample_dim': 2, 'ires': 10, 'res': 101, 'parameters': []}`.
Dict object id 0, parameters list object id 1. -/
def DEFAULT_SETTINGS : SettingsObj :=
  { dictRef := 0, sample_dim := 2, ires := 10, res := 101, paramsRef := 1, parameters := [] }

/-- `DEFAULT_SETTINGS_3 = {'sample_dim': 3, 'ires': 10, 'res': 101, 'parameters': []}`.
Dict object id 2, parameters list object id 3. -/
def DEFAULT_SETTINGS_3 : SettingsObj :=
  { dictRef := 2, sample_dim := 3, ires := 10, res := 101, paramsRef := 3, parameters := [] }

/-- Semantics of `dict(base, **overrides)` as used in the source: a fresh
dict object (`dictRef` is the next unused allocation id), a *shallow* copy
of the fields, each provided override replacing the copied value.  When
`parameters` is overridden the new list literal is itself a fresh object,
carried here as an explicit `(freshListRef, list)` pair; otherwise the
base's list object is shared (same `paramsRef`). -/
def dictDerive (base : SettingsObj) (dictRef : Nat) (res? sample_dim? : Option Nat)
    (params? : Option (Nat × List Param)) : SettingsObj :=
  match params? with
  | none =>
      { dictRef := dictRef, sample_dim := sample_dim?.getD base.sample_dim,
        ires := base.ires, res := res?.getD base.res,
        paramsRef := base.paramsRef, parameters := base.parameters }
  | some (pr, ps) =>
      { dictRef := dictRef, sample_dim := sample_dim?.getD base.sample_dim,
        ires := base.ires, res := res?.getD base.res,
        paramsRef := pr, parameters := ps }

/- The `dict(...)` calls of the source allocate ids 4,5,... in source
evaluation order (ids 0-3 belong to the two templates and their parameter
lists); a parameters-list literal takes the id right after its dict. -/

/-- `dict(DEFAULT_SETTINGS, res=100)` (source line 62). -/
def sTriangle : SettingsObj := dictDerive DEFAULT_SETTINGS 4 (some 100) none none

/-- `dict(DEFAULT_SETTINGS, parameters=[('Cutoff angle', [1e-4, 180, 20])])` (lines 100-103). -/
def sCone : SettingsObj := dictDerive DEFAULT_SETTINGS 5 none none
  (some (6, [⟨"Cutoff angle", 1e-4, 180, 20⟩]))

/-- `dict(DEFAULT_SETTINGS, parameters=[('Roughness', [0, 1, 0.6])])` (lines 112-115). -/
def sBeckmann : SettingsObj := dictDerive DEFAULT_SETTINGS 7 none none
  (some (8, [⟨"Roughness", 0, 1, 0.6⟩]))

/-- `dict(DEFAULT_SETTINGS, parameters=[('Concentration', [0, 100, 10])])` (lines 120-123). -/
def sVMF : SettingsObj := dictDerive DEFAULT_SETTINGS 9 none none
  (some (10, [⟨"Concentration", 0, 100, 10⟩]))

/-- `dict(DEFAULT_SETTINGS, sample_dim=3, parameters=[...])` (lines 132-137). -/
def sFiber : SettingsObj := dictDerive DEFAULT_SETTINGS 11 none (some 3)
  (some (12, [⟨"Concentration", 0, 500, 10⟩, ⟨"Inclination", 0, 90, 20⟩]))

/-- `dict(DEFAULT_SETTINGS, sample_dim=1)` (line 146). -/
def sSpecTest : SettingsObj := dictDerive DEFAULT_SETTINGS 13 none (some 1) none

/-- `dict(DEFAULT_SETTINGS, sample_dim=1)` (line 150). -/
def sSpecD65 : SettingsObj := dictDerive DEFAULT_SETTINGS 14 none (some 1) none

/-- `dict(DEFAULT_SETTINGS, sample_dim=1, parameters=[('Temperature', [0, 8000, 3000])])` (lines 156-160). -/
def sSpecBB : SettingsObj := dictDerive DEFAULT_SETTINGS 15 none (some 1)
  (some (16, [⟨"Temperature", 0, 8000, 3000⟩]))

/-- `dict(DEFAULT_SETTINGS, parameters=[('Angle of incidence', [0, 90, 30])])` (lines 171-172). -/
def sBVis5 : SettingsObj := dictDerive DEFAULT_SETTINGS 17 none none
  (some (18, [⟨"Angle of incidence", 0, 90, 30⟩]))

/-- Same override, second occurrence (lines 175-176). -/
def sBVis1 : SettingsObj := dictDerive DEFAULT_SETTINGS 19 none none
  (some (20, [⟨"Angle of incidence", 0, 90, 30⟩]))

/-- Same override, third occurrence (lines 187-188). -/
def sGVis5 : SettingsObj := dictDerive DEFAULT_SETTINGS 21 none none
  (some (22, [⟨"Angle of incidence", 0, 90, 30⟩]))

/-- Same override, fourth occurrence (lines 191-192). -/
def sGVis1 : SettingsObj := dictDerive DEFAULT_SETTINGS 23 none none
  (some (24, [⟨"Angle of incidence", 0, 90, 30⟩]))

/-- `dict(DEFAULT_SETTINGS_3, parameters=[alpha_u, alpha_v, Theta, Phi])` (lines 214-220). -/
def sRCInt : SettingsObj := dictDerive DEFAULT_SETTINGS_3 25 none none
  (some (26, [⟨"alpha_u", 0, 1, 0.2⟩, ⟨"alpha_v", 0, 1, 0.2⟩,
              ⟨"Theta", 0, np_pi, 0⟩, ⟨"Phi", 0, 2 * np_pi, 0⟩]))

/-- Same overrides, second occurrence (lines 225-231). -/
def sRCVisInt : SettingsObj := dictDerive DEFAULT_SETTINGS_3 27 none none
  (some (28, [⟨"alpha_u", 0, 1, 0.2⟩, ⟨"alpha_v", 0, 1, 0.2⟩,
              ⟨"Theta", 0, np_pi, 0⟩, ⟨"Phi", 0, 2 * np_pi, 0⟩]))

/-- `dict(DEFAULT_SETTINGS, parameters=[('param0', [0, 1, 0.5]), ('param1', [0, 1, 0.005])])` (lines 316-320). -/
def sHier4D : SettingsObj := dictDerive DEFAULT_SETTINGS 29 none none
  (some (30, [⟨"param0", 0, 1, 0.5⟩, ⟨"param1", 0, 1, 0.005⟩]))

/-- The `DISTRIBUTIONS` table (lines 51-262 of the source, plus the two
hierarchical-warp entries appended by the `+=` statement at lines 308-321):
name, domain and settings of each entry, in source order. -/
def DISTRIBUTIONS : List Entry := [
    { name := "Uniform square",
      domain := .PlanarDomain (some ((0, 1), (0, 1))), settings := DEFAULT_SETTINGS },
    { name := "Uniform triangle",
      domain := .PlanarDomain (some ((0, 1), (0, 1))), settings := sTriangle },
    { name := "Tent function",
      domain := .PlanarDomain (some ((-1, 1), (-1, 1))), settings := DEFAULT_SETTINGS },
    { name := "Uniform disk",
      domain := .PlanarDomain none, settings := DEFAULT_SETTINGS },
    { name := "Uniform disk (concentric)",
      domain := .PlanarDomain none, settings := DEFAULT_SETTINGS },
    { name := "Uniform sphere",
      domain := .SphericalDomain, settings := DEFAULT_SETTINGS },
    { name := "Uniform hemisphere",
      domain := .SphericalDomain, settings := DEFAULT_SETTINGS },
    { name := "Cosine hemisphere",
      domain := .SphericalDomain, settings := DEFAULT_SETTINGS },
    { name := "Uniform cone",
      domain := .SphericalDomain, settings := sCone },
    { name := "Beckmann distribution",
      domain := .SphericalDomain, settings := sBeckmann },
    { name := "von Mises-Fisher distribution",
      domain := .SphericalDomain, settings := sVMF },
    { name := "Rough fiber distribution",
      domain := .SphericalDomain, settings := sFiber },
    { name := "Spectrum: test",
      domain := .LineDomain 300 700, settings := sSpecTest },
    { name := "Spectrum: d65",
      domain := .LineDomain 360 830, settings := sSpecD65 },
    { name := "Spectrum: blackbody",
      domain := .LineDomain 360 830, settings := sSpecBB },
    { name := "Microfact: Beckmann, all, 0.5",
      domain := .SphericalDomain, settings := DEFAULT_SETTINGS },
    { name := "Microfact: Beckmann, all, 0.1",
      domain := .SphericalDomain, settings := DEFAULT_SETTINGS },
    { name := "Microfact: Beckmann, vis, 0.5",
      domain := .SphericalDomain, settings := sBVis5 },
    { name := "Microfact: Beckmann, vis, 0.1",
      domain := .SphericalDomain, settings := sBVis1 },
    { name := "Microfact: GGX, all, 0.5",
      domain := .SphericalDomain, settings := DEFAULT_SETTINGS },
    { name := "Microfact: GGX, all, 0.1",
      domain := .SphericalDomain, settings := DEFAULT_SETTINGS },
    { name := "Microfact: GGX, vis, 0.5",
      domain := .SphericalDomain, settings := sGVis5 },
    { name := "Microfact: GGX, vis, 0.1",
      domain := .SphericalDomain, settings := sGVis1 },
    { name := "Diffuse BSDF",
      domain := .SphericalDomain, settings := DEFAULT_SETTINGS_3 },
    { name := "Rough conductor BSDF - smooth",
      domain := .SphericalDomain, settings := DEFAULT_SETTINGS_3 },
    { name := "Rough conductor BSDF - rough",
      domain := .SphericalDomain, settings := DEFAULT_SETTINGS_3 },
    { name := "Rough conductor BSDF - rough - alternative wi",
      domain := .SphericalDomain, settings := DEFAULT_SETTINGS_3 },
    { name := "Rough conductor BSDF - interactive",
      domain := .SphericalDomain, settings := sRCInt },
    { name := "Rough conductor BSDF - vis - interactive",
      domain := .SphericalDomain, settings := sRCVisInt },
    { name := "Rough plastic BSDF - rough",
      domain := .SphericalDomain, settings := DEFAULT_SETTINGS_3 },
    { name := "Rough plastic BSDF - rough - alternative wi",
      domain := .SphericalDomain, settings := DEFAULT_SETTINGS_3 },
    { name := "Plastic BSDF",
      domain := .SphericalDomain, settings := DEFAULT_SETTINGS_3 },
    { name := "Plastic BSDF - alternative wi",
      domain := .SphericalDomain, settings := DEFAULT_SETTINGS_3 },
    { name := "Hierarchical warp (small)",
      domain := .PlanarDomain (some ((0, 1), (0, 1))), settings := DEFAULT_SETTINGS },
    { name := "Hierarchical warp (4D, big)",
      domain := .PlanarDomain (some ((0, 1), (0, 1))), settings := sHier4D } ]

/-- The domain/sample_dim compatibility check of the spec: 1 for line
domains, 2 for planar domains, 2 or 3 for spherical domains. -/
def domainMatchesSampleDim (e : Entry) : Bool :=
  match e.domain with
  | .LineDomain _ _ => e.settings.sample_dim == 1
  | .PlanarDomain _ => e.settings.sample_dim == 2
  | .SphericalDomain => e.settings.sample_dim == 2 || e.settings.sample_dim == 3

/-- Membership of a point in the rectangle of a `PlanarDomain(bounds)`. -/
def memPlanarRect (d : Domain) (p : ℚ × ℚ) : Prop :=
  match d with
  | .PlanarDomain (some ((x0, x1), (y0, y1))) =>
      x0 ≤ p.1 ∧ p.1 ≤ x1 ∧ y0 ≤ p.2 ∧ p.2 ≤ y1
  | _ => False

/-- The `Uniform square` sample generator, `lambda x: x` (source line 54):
the identity on a batch of 2D points. -/
def uniformSquareSample (x : List (ℚ × ℚ)) : List (ℚ × ℚ) := x

/-- The `Uniform square` probability function,
`lambda x: np.ones(x.shape[0])` (source line 55): one density value `1.0`
per row of the input batch, regardless of where the points lie. -/
def uniformSquareDensity (x : List (ℚ × ℚ)) : List ℚ :=
  x.map (fun _ => 1)

/-! ## The directly supplied `(sample, density)` pairs

The first twelve entries of the table supply their function pair directly
(lambdas, or references to external `warp.*` routines).  Each function is
embedded as a map from the list of extra positional arguments (the values
the tester passes after the uniform input / evaluation point) to the
underlying routine invocation it performs; `none` models the `TypeError`
Python raises on an arity mismatch.  Numeric transforms applied to the
arguments are kept symbolic in a small expression language, so that the
embedding records *which* expression each lambda builds. -/

/-- Symbolic numeric expressions over the float constants and `numpy`
transcendental functions used by the table's lambdas. -/
inductive NExp where
  | lit (q : ℚ)
  | pi
  | add (a b : NExp)
  | sub (a b : NExp)
  | mul (a b : NExp)
  | div (a b : NExp)
  | cos (a : NExp)
  | sin (a : NExp)
  | exp (a : NExp)
  | log (a : NExp)
deriving DecidableEq, Repr

/-- `def deg2rad(value): return value * np.pi / 180` (source lines 44-45). -/
def deg2rad (value : NExp) : NExp := .div (.mul value .pi) (.lit 180)

/-- One argument of an underlying warp invocation: a scalar expression, or
a (tiled) 3-vector of expressions. -/
inductive WArg where
  | scalar (e : NExp)
  | vec3 (x y z : NExp)
deriving DecidableEq, Repr

/-- The underlying routine invocation performed by a registered function:
the routine's name and the extra arguments passed after the uniform sample
/ evaluation point, in positional order. -/
structure WarpCall where
  warpName : String
  extraArgs : List WArg
deriving DecidableEq, Repr

/-- `lambda x: x` (line 54): accepts no extra arguments, performs no
underlying warp invocation (recorded under the name `identity`). -/
def uniformSquareSampleFn : List ℚ → Option WarpCall
  | [] => some ⟨"identity", []⟩
  | _ => none

/-- `lambda x: np.ones(x.shape[0])` (line 55): accepts no extra arguments
(recorded under the name `ones`). -/
def uniformSquarePdfFn : List ℚ → Option WarpCall
  | [] => some ⟨"ones", []⟩
  | _ => none

/-- Modelled from the spec: the bare external `warp.*` routines referenced
by the table (`square_to_uniform_triangle`, `square_to_tent`, the disk,
sphere and hemisphere warps and their `_pdf` companions) live outside this
repository slice; per the spec's adapter contract they accept the uniform
sample (resp. the evaluation point) and exactly the entry's declared
parameters — none, for these entries. -/
def bareWarp (nm : String) : List ℚ → Option WarpCall
  | [] => some ⟨nm, []⟩
  | _ => none

/-- Modelled from the spec: `warp.square_to_von_mises_fisher` (line 118)
is external; per the spec's adapter contract it accepts the sample plus
the single declared `Concentration` parameter. -/
def vonMisesFisherSampleFn : List ℚ → Option WarpCall
  | [kappa] => some ⟨"square_to_von_mises_fisher", [.scalar (.lit kappa)]⟩
  | _ => none

/-- Modelled from the spec: `warp.square_to_von_mises_fisher_pdf` (line 119),
external, point plus the `Concentration` parameter. -/
def vonMisesFisherPdfFn : List ℚ → Option WarpCall
  | [kappa] => some ⟨"square_to_von_mises_fisher_pdf", [.scalar (.lit kappa)]⟩
  | _ => none

/-- `lambda sample, angle: warp.square_to_uniform_cone(sample,
np.cos(deg2rad(angle)))` (lines 96-97). -/
def uniformConeSampleFn : List ℚ → Option WarpCall
  | [angle] => some ⟨"square_to_uniform_cone", [.scalar (.cos (deg2rad (.lit angle)))]⟩
  | _ => none

/-- `lambda v, angle: warp.square_to_uniform_cone_pdf(v,
np.cos(deg2rad(angle)))` (lines 98-99). -/
def uniformConePdfFn : List ℚ → Option WarpCall
  | [angle] => some ⟨"square_to_uniform_cone_pdf", [.scalar (.cos (deg2rad (.lit angle)))]⟩
  | _ => none

/-- `lambda sample, value: warp.square_to_beckmann(sample,
np.exp(np.log(0.05) * (1 - value) + np.log(1) * value))` (lines 106-108). -/
def beckmannSampleFn : List ℚ → Option WarpCall
  | [value] => some ⟨"square_to_beckmann",
      [.scalar (.exp (.add (.mul (.log (.lit 0.05)) (.sub (.lit 1) (.lit value)))
                           (.mul (.log (.lit 1)) (.lit value))))]⟩
  | _ => none

/-- `lambda v, value: warp.square_to_beckmann_pdf(v,
np.exp(np.log(0.05) * (1 - value) + np.log(1) * value))` (lines 109-111). -/
def beckmannPdfFn : List ℚ → Option WarpCall
  | [value] => some ⟨"square_to_beckmann_pdf",
      [.scalar (.exp (.add (.mul (.log (.lit 0.05)) (.sub (.lit 1) (.lit value)))
                           (.mul (.log (.lit 1)) (.lit value))))]⟩
  | _ => none

/-- `lambda sample, kappa, incl: warp.square_to_rough_fiber(sample,
np.tile([sin(deg2rad(incl)), 0, cos(deg2rad(incl))], ...),
np.tile([1, 0, 0], ...), kappa)` (lines 126-128).  The tiled fiber and
tangent directions are recorded as 3-vectors of expressions; the
`dtype=float_dtype` annotation of the sample side has no bearing on the
values passed. -/
def roughFiberSampleFn : List ℚ → Option WarpCall
  | [kappa, incl] => some ⟨"square_to_rough_fiber",
      [.vec3 (.sin (deg2rad (.lit incl))) (.lit 0) (.cos (deg2rad (.lit incl))),
       .vec3 (.lit 1) (.lit 0) (.lit 0),
       .scalar (.lit kappa)]⟩
  | _ => none

/-- `lambda v, kappa, incl: warp.square_to_rough_fiber_pdf(v,
np.tile([sin(deg2rad(incl)), 0, cos(deg2rad(incl))], ...),
np.tile([1, 0, 0], ...), kappa)` (lines 129-131). -/
def roughFiberPdfFn : List ℚ → Option WarpCall
  | [kappa, incl] => some ⟨"square_to_rough_fiber_pdf",
      [.vec3 (.sin (deg2rad (.lit incl))) (.lit 0) (.cos (deg2rad (.lit incl))),
       .vec3 (.lit 1) (.lit 0) (.lit 0),
       .scalar (.lit kappa)]⟩
  | _ => none

/-- One entry of the table whose `(sample, density)` pair is given directly
(first twelve entries): its name, its declared parameter count, and the two
embedded functions. -/
structure DirectEntry where
  name : String
  nparams : Nat
  sampleFn : List ℚ → Option WarpCall
  pdfFn : List ℚ → Option WarpCall

/-- The twelve directly supplied `(sample, density)` pairs of the table
(source lines 51-138), in source order. -/
def directDistributions : List DirectEntry := [
  { name := "Uniform square", nparams := 0,
    sampleFn := uniformSquareSampleFn, pdfFn := uniformSquarePdfFn },
  { name := "Uniform triangle", nparams := 0,
    sampleFn := bareWarp "square_to_uniform_triangle",
    pdfFn := bareWarp "square_to_uniform_triangle_pdf" },
  { name := "Tent function", nparams := 0,
    sampleFn := bareWarp "square_to_tent",
    pdfFn := bareWarp "square_to_tent_pdf" },
  { name := "Uniform disk", nparams := 0,
    sampleFn := bareWarp "square_to_uniform_disk",
    pdfFn := bareWarp "square_to_uniform_disk_pdf" },
  { name := "Uniform disk (concentric)", nparams := 0,
    sampleFn := bareWarp "square_to_uniform_disk_concentric",
    pdfFn := bareWarp "square_to_uniform_disk_concentric_pdf" },
  { name := "Uniform sphere", nparams := 0,
    sampleFn := bareWarp "square_to_uniform_sphere",
    pdfFn := bareWarp "square_to_uniform_sphere_pdf" },
  { name := "Uniform hemisphere", nparams := 0,
    sampleFn := bareWarp "square_to_uniform_hemisphere",
    pdfFn := bareWarp "square_to_uniform_hemisphere_pdf" },
  { name := "Cosine hemisphere", nparams := 0,
    sampleFn := bareWarp "square_to_cosine_hemisphere",
    pdfFn := bareWarp "square_to_cosine_hemisphere_pdf" },
  { name := "Uniform cone", nparams := 1,
    sampleFn := uniformConeSampleFn, pdfFn := uniformConePdfFn },
  { name := "Beckmann distribution", nparams := 1,
    sampleFn := beckmannSampleFn, pdfFn := beckmannPdfFn },
  { name := "von Mises-Fisher distribution", nparams := 1,
    sampleFn := vonMisesFisherSampleFn, pdfFn := vonMisesFisherPdfFn },
  { name := "Rough fiber distribution", nparams := 2,
    sampleFn := roughFiberSampleFn, pdfFn := roughFiberPdfFn } ]

/-! ## The hierarchical-warp builders (source lines 264-321)

`LinearWarp2D0Test` and `LinearWarp2D2Test` load raster images through the
file resolver and build `Linear2D0` / `Linear2D2` objects.  Image decoding
is external; a loaded image is modelled by its `numpy` array shape (a list
of dimension sizes), and the file system by a partial map from resolved
path to shape.  A missing file makes the load raise, modelled with
`Except`; the `tensor[i, j, :, :] = img.squeeze()` assignments of the
conditioned builder raise when the squeezed shape does not broadcast to
the fixed `512 x 512` slice, per `numpy` assignment semantics. -/

/-- A `numpy` array shape: the list of dimension sizes. -/
abbrev Dims := List Nat

/-- The errors the builders can raise at construction time. -/
inductive LoadErr where
  | fileNotFound (path : String)
  | broadcastFailure (shape : Dims)
deriving DecidableEq, Repr

/-- The relative resource directory used by both builders
(`prefix = 'resources/data/tests/warp/'`, lines 268 and 285). -/
def resourceDir : String := "resources/data/tests/warp/"

/-- `np.array(Bitmap(fr.resolve(path)))`: look the path up in the modelled
file system, raising when the file is missing or unreadable. -/
def loadBitmap (fs : String → Option Dims) (path : String) : Except LoadErr Dims :=
  match fs path with
  | some d => .ok d
  | none => .error (.fileNotFound path)

/-- `arr.squeeze()`: drop every dimension of size one. -/
def squeeze (d : Dims) : Dims := d.filter (fun n => n != 1)

/-- `numpy` broadcast compatibility of a source shape against a target
shape, aligning trailing dimensions: every aligned source dimension must
equal the target's or be one. -/
def broadcastableTo (src target : Dims) : Bool :=
  src.length ≤ target.length &&
    (src.reverse.zip target.reverse).all (fun st => st.1 == st.2 || st.1 == 1)

/-- One assignment `tensor[i, j, :, :] = img.squeeze()` into the
`np.full((2, 2, 512, 512), 0)` tensor (lines 291-295): succeeds exactly
when the squeezed image shape broadcasts to the `(512, 512)` slice. -/
def assignSlice (img : Dims) : Except LoadErr Unit :=
  if broadcastableTo (squeeze img) [512, 512] then .ok ()
  else .error (.broadcastFailure (squeeze img))

/-- `LinearWarp2D0Test` (lines 264-278), construction phase: load
`small.png` and hand its squeezed array to the external `Linear2D0`
constructor.  Returns the squeezed shape on success. -/
def LinearWarp2D0TestLoad (fs : String → Option Dims) : Except LoadErr Dims := do
  let img0 ← loadBitmap fs (resourceDir ++ "small.png")
  pure (squeeze img0)

/-- `LinearWarp2D2Test` (lines 281-305), construction phase: load
`img0.png` ... `img3.png`, then perform the four slice assignments into
the `2 x 2 x 512 x 512` tensor handed to the external `Linear2D2`
constructor together with the parameter grid `[[0, 1], [0, 1]]`. -/
def LinearWarp2D2TestLoad (fs : String → Option Dims) : Except LoadErr Unit := do
  let img0 ← loadBitmap fs (resourceDir ++ "img0.png")
  let img1 ← loadBitmap fs (resourceDir ++ "img1.png")
  let img2 ← loadBitmap fs (resourceDir ++ "img2.png")
  let img3 ← loadBitmap fs (resourceDir ++ "img3.png")
  assignSlice img0
  assignSlice img1
  assignSlice img2
  assignSlice img3

/-- The module-level registration statement `DISTRIBUTIONS += [...]`
(lines 308-321): it evaluates `LinearWarp2D0Test()` and then
`LinearWarp2D2Test()` while constructing the appended list, so an
exception raised by either builder propagates out of the statement and the
module fails to load — producing no registry at all.  On success the full
35-entry table is the module's registry. -/
def registryLoad (fs : String → Option Dims) : Except LoadErr (List Entry) := do
  let _ ← LinearWarp2D0TestLoad fs
  let _ ← LinearWarp2D2TestLoad fs
  pure DISTRIBUTIONS

/-- Whether an `Except` result is a success. -/
def okB {α : Type} (x : Except LoadErr α) : Bool :=
  match x with
  | .ok _ => true
  | .error _ => false

/-- A file system holding the five warp test images with the given shapes
(`none` = file missing). -/
def fsTable (small img0 img1 img2 img3 : Option Dims) : String → Option Dims :=
  fun p =>
    if p = resourceDir ++ "small.png" then small
    else if p = resourceDir ++ "img0.png" then img0
    else if p = resourceDir ++ "img1.png" then img1
    else if p = resourceDir ++ "img2.png" then img2
    else if p = resourceDir ++ "img3.png" then img3
    else none

/-- A file system where `small.png` is missing but the four conditioned
images are present at the expected resolution. -/
def fsMissingSmall : String → Option Dims :=
  fsTable none (some [512, 512]) (some [512, 512]) (some [512, 512]) (some [512, 512])

/-- A file system where the four conditioned images do *not* have matching
dimensions: `img3.png` is a single-channel `512 x 1` image (squeezed shape
`[512]`), which `numpy` happily broadcasts across the `512 x 512` slice. -/
def fsMismatched : String → Option Dims :=
  fsTable (some [512, 512]) (some [512, 512]) (some [512, 512]) (some [512, 512])
    (some [512, 1])

/-! ## The functor pairs returned by the builders

The `Linear2D0` / `Linear2D2` objects are external; both expose
`sample(sample, *args)` returning a `(position, density)` pair and
`eval(p, *args)` returning a density, which is all the returned functors
rely on.  They are modelled by an abstract structure over rational
positions and argument lists. -/

/-- An abstract hierarchical warp object (external `Linear2D0` or
`Linear2D2`): `sample` maps a 2D sample and the extra parameters to a
`(warped position, density)` pair, `eval` maps a position and the extra
parameters to a density. -/
structure Linear2DDist where
  sample : (ℚ × ℚ) → List ℚ → (ℚ × ℚ) × ℚ
  eval : (ℚ × ℚ) → List ℚ → ℚ

/-- The `(sample_functor, pdf_functor)` pair returned by
`LinearWarp2D0Test` (lines 272-278): `sample_functor` returns
`d.sample(sample, *args)[0]`, `pdf_functor` returns `d.eval(p, *args)`. -/
def LinearWarp2D0TestFns (d : Linear2DDist) :
    ((ℚ × ℚ) → List ℚ → (ℚ × ℚ)) × ((ℚ × ℚ) → List ℚ → ℚ) :=
  (fun sample args => (d.sample sample args).1,
   fun p args => d.eval p args)

/-- The `(sample_functor, pdf_functor)` pair returned by
`LinearWarp2D2Test` (lines 299-305): textually the same functors over the
conditioned distribution object. -/
def LinearWarp2D2TestFns (d : Linear2DDist) :
    ((ℚ × ℚ) → List ℚ → (ℚ × ℚ)) × ((ℚ × ℚ) → List ℚ → ℚ) :=
  (fun sample args => (d.sample sample args).1,
   fun p args => d.eval p args)

/-- A concrete hierarchical warp whose `sample` carries density 7 in its
second component. -/
def distSecond7 : Linear2DDist :=
  { sample := fun s _ => (s, 7), eval := fun _ _ => 3 }

/-- The same positions as `distSecond7` but density 9 in the second
component of `sample`. -/
def distSecond9 : Linear2DDist :=
  { sample := fun s _ => (s, 9), eval := fun _ _ => 3 }

/-! ## The Beckmann roughness mapping (source lines 105-115)

The two Beckmann lambdas transform the user-facing `Roughness` value
before calling the warp; the transform is a real-valued map, embedded over
`ℝ` (the float arithmetic of the source is modelled exactly by real
arithmetic here; only order-of-magnitude facts are at stake). -/

/-- The internal roughness computed by the Beckmann *sample* lambda:
`np.exp(np.log(0.05) * (1 - value) + np.log(1) * value)` (line 108). -/
noncomputable def beckmannSampleAlpha (value : ℝ) : ℝ :=
  Real.exp (Real.log 0.05 * (1 - value) + Real.log 1 * value)

/-- The internal roughness computed by the Beckmann *density* lambda:
`np.exp(np.log(0.05) * (1 - value) + np.log(1) * value)` (line 111). -/
noncomputable def beckmannPdfAlpha (value : ℝ) : ℝ :=
  Real.exp (Real.log 0.05 * (1 - value) + Real.log 1 * value)

/-! ## Theorems -/

/-- C4: the name strings of all entries of the full registry
`DISTRIBUTIONS` (including the two hierarchical-warp entries appended at
the end) are pairwise distinct. -/
theorem C4_names_distinct : (DISTRIBUTIONS.map Entry.name).Nodup := by decide

/-- C6: for every registry entry the domain variant matches the declared
`sample_dim`: line domains have `sample_dim = 1`, planar domains have
`sample_dim = 2`, spherical domains have `sample_dim = 2` or `3`. -/
theorem C6_domain_matches_sample_dim :
    ∀ e ∈ DISTRIBUTIONS, domainMatchesSampleDim e = true := by decide

/-- Witness for C6 at the first registry entry (`Uniform square`). -/
theorem C6_domain_matches_sample_dim_witness :
    domainMatchesSampleDim (DISTRIBUTIONS.get ⟨0, by decide⟩) = true :=
  C6_domain_matches_sample_dim _ (List.get_mem DISTRIBUTIONS 0 (by decide))

/-- C5: for every registry entry and every declared parameter
`(label, [min, max, default])`, the default lies within the declared
range: `min ≤ default ≤ max`. -/
theorem C5_defaults_in_range :
    ∀ e ∈ DISTRIBUTIONS, ∀ p ∈ e.settings.parameters,
      p.min ≤ p.default ∧ p.default ≤ p.max := by
  norm_num [DISTRIBUTIONS, sTriangle, sCone, sBeckmann, sVMF, sFiber, sSpecTest,
    sSpecD65, sSpecBB, sBVis5, sBVis1, sGVis5, sGVis1, sRCInt, sRCVisInt, sHier4D,
    dictDerive, DEFAULT_SETTINGS, DEFAULT_SETTINGS_3, np_pi]

/-- Witness for C5 at the `Beckmann distribution` entry's `Roughness`
parameter. -/
theorem C5_defaults_in_range_witness :
    ((DISTRIBUTIONS.get ⟨9, by decide⟩).settings.parameters.get ⟨0, by decide⟩).min ≤
      ((DISTRIBUTIONS.get ⟨9, by decide⟩).settings.parameters.get ⟨0, by decide⟩).default ∧
    ((DISTRIBUTIONS.get ⟨9, by decide⟩).settings.parameters.get ⟨0, by decide⟩).default ≤
      ((DISTRIBUTIONS.get ⟨9, by decide⟩).settings.parameters.get ⟨0, by decide⟩).max :=
  C5_defaults_in_range _ (List.get_mem DISTRIBUTIONS 9 (by decide)) _
    (List.get_mem _ 0 (by decide))

/-- Counterexample to C1: the `Uniform square` and `Tent function` entries
hold the *same* settings dict object — `DEFAULT_SETTINGS` itself — and the
same `parameters` list object, so a mutation through one entry's settings
(e.g. appending to its `parameters` list, or reassigning its `res` key) is
observable through the other entry and through the base template, contrary
to the claimed isolation. -/
theorem C1_settings_shared_counterexample :
    (DISTRIBUTIONS.get ⟨0, by decide⟩).name = "Uniform square" ∧
    (DISTRIBUTIONS.get ⟨2, by decide⟩).name = "Tent function" ∧
    (DISTRIBUTIONS.get ⟨0, by decide⟩).settings.dictRef =
      (DISTRIBUTIONS.get ⟨2, by decide⟩).settings.dictRef ∧
    (DISTRIBUTIONS.get ⟨0, by decide⟩).settings.dictRef = DEFAULT_SETTINGS.dictRef ∧
    (DISTRIBUTIONS.get ⟨0, by decide⟩).settings.paramsRef = DEFAULT_SETTINGS.paramsRef := by
  decide

/-- C1 (amended): settings objects *are* shared between entries, in a
precise pattern.  Two distinct entries hold the same settings dict object
exactly when both hold a base template directly (the same one); and they
hold the same `parameters` list object exactly when both share a base
template's list — i.e. neither overrode `parameters` (every override
allocates a fresh list, and `dict(base, ...)` copies are shallow, keeping
the base's list when `parameters` is not among the overrides). -/
theorem C1_settings_sharing_structure :
    ∀ i j : Fin DISTRIBUTIONS.length, i ≠ j →
      (((DISTRIBUTIONS.get i).settings.dictRef = (DISTRIBUTIONS.get j).settings.dictRef) ↔
        (((DISTRIBUTIONS.get i).settings.dictRef = DEFAULT_SETTINGS.dictRef ∧
          (DISTRIBUTIONS.get j).settings.dictRef = DEFAULT_SETTINGS.dictRef) ∨
         ((DISTRIBUTIONS.get i).settings.dictRef = DEFAULT_SETTINGS_3.dictRef ∧
          (DISTRIBUTIONS.get j).settings.dictRef = DEFAULT_SETTINGS_3.dictRef))) ∧
      (((DISTRIBUTIONS.get i).settings.paramsRef = (DISTRIBUTIONS.get j).settings.paramsRef) ↔
        (((DISTRIBUTIONS.get i).settings.paramsRef = DEFAULT_SETTINGS.paramsRef ∧
          (DISTRIBUTIONS.get j).settings.paramsRef = DEFAULT_SETTINGS.paramsRef) ∨
         ((DISTRIBUTIONS.get i).settings.paramsRef = DEFAULT_SETTINGS_3.paramsRef ∧
          (DISTRIBUTIONS.get j).settings.paramsRef = DEFAULT_SETTINGS_3.paramsRef))) := by
  decide

/-- Witness for the amended C1 at the pair (`Uniform square`,
`Tent function`). -/
theorem C1_settings_sharing_structure_witness :
    (((DISTRIBUTIONS.get ⟨0, by decide⟩).settings.dictRef =
        (DISTRIBUTIONS.get ⟨2, by decide⟩).settings.dictRef) ↔
      (((DISTRIBUTIONS.get ⟨0, by decide⟩).settings.dictRef = DEFAULT_SETTINGS.dictRef ∧
        (DISTRIBUTIONS.get ⟨2, by decide⟩).settings.dictRef = DEFAULT_SETTINGS.dictRef) ∨
       ((DISTRIBUTIONS.get ⟨0, by decide⟩).settings.dictRef = DEFAULT_SETTINGS_3.dictRef ∧
        (DISTRIBUTIONS.get ⟨2, by decide⟩).settings.dictRef = DEFAULT_SETTINGS_3.dictRef))) ∧
    (((DISTRIBUTIONS.get ⟨0, by decide⟩).settings.paramsRef =
        (DISTRIBUTIONS.get ⟨2, by decide⟩).settings.paramsRef) ↔
      (((DISTRIBUTIONS.get ⟨0, by decide⟩).settings.paramsRef = DEFAULT_SETTINGS.paramsRef ∧
        (DISTRIBUTIONS.get ⟨2, by decide⟩).settings.paramsRef = DEFAULT_SETTINGS.paramsRef) ∨
       ((DISTRIBUTIONS.get ⟨0, by decide⟩).settings.paramsRef = DEFAULT_SETTINGS_3.paramsRef ∧
        (DISTRIBUTIONS.get ⟨2, by decide⟩).settings.paramsRef = DEFAULT_SETTINGS_3.paramsRef))) :=
  C1_settings_sharing_structure ⟨0, by decide⟩ ⟨2, by decide⟩ (by decide)

/-- Counterexample to C3: the `Uniform square` density function
(`lambda x: np.ones(x.shape[0])`) evaluated at the point `(2, 2)` — which
lies outside the entry's `[0,1] x [0,1]` planar domain — returns `1`, not
`0`: the function is the constant one everywhere and never checks the
support. -/
theorem C3_outside_support_counterexample :
    uniformSquareDensity [((2 : ℚ), (2 : ℚ))] = [1] ∧
    ¬ memPlanarRect (DISTRIBUTIONS.get ⟨0, by decide⟩).domain (2, 2) ∧
    (1 : ℚ) ≠ 0 := by
  refine ⟨rfl, ?_, by norm_num⟩
  have h : (DISTRIBUTIONS.get ⟨0, by decide⟩).domain =
      .PlanarDomain (some ((0, 1), (0, 1))) := rfl
  rw [h]
  simp only [memPlanarRect]
  norm_num

/-- C3 (amended): the only density function defined directly in the file —
the `Uniform square` one — returns the constant `1` for every input point
(one value per batch row), which is nonnegative, but it does *not* return
`0` outside the `[0,1] x [0,1]` domain; the remaining entries' densities
are external `warp.*` / adapter code outside this file. -/
theorem C3_uniform_square_density_constant_one :
    ∀ pts : List (ℚ × ℚ),
      (uniformSquareDensity pts).length = pts.length ∧
      ∀ d ∈ uniformSquareDensity pts, d = 1 ∧ 0 ≤ d := by
  intro pts
  refine ⟨by simp [uniformSquareDensity], ?_⟩
  intro d hd
  simp only [uniformSquareDensity, List.mem_map] at hd
  obtain ⟨p, -, rfl⟩ := hd
  norm_num

/-- Witness for the amended C3 at the batch `[(3/10, 8)]`. -/
theorem C3_uniform_square_density_constant_one_witness :
    (1 : ℚ) = 1 ∧ (0 : ℚ) ≤ 1 :=
  (C3_uniform_square_density_constant_one [((3 : ℚ)/10, 8)]).2 1
    (by simp [uniformSquareDensity])

/-- Counterexample to C2: with `small.png` missing but all four
conditioned images present and well-formed, `LinearWarp2D0Test` raises and
the whole `DISTRIBUTIONS += [...]` statement — and with it the module load
— fails: *no* entry is registered (the construction yields an error, never
a list), so the failure of one image-backed TestCase is not isolated and
in particular the `Hierarchical warp (4D, big)` entry does not register
either. -/
theorem C2_failure_not_isolated_counterexample :
    LinearWarp2D0TestLoad fsMissingSmall =
      .error (.fileNotFound (resourceDir ++ "small.png")) ∧
    registryLoad fsMissingSmall =
      .error (.fileNotFound (resourceDir ++ "small.png")) ∧
    (∀ l : List Entry, registryLoad fsMissingSmall ≠ .ok l) := by
  have h : registryLoad fsMissingSmall =
      .error (.fileNotFound (resourceDir ++ "small.png")) := by
    simp [registryLoad, LinearWarp2D0TestLoad, loadBitmap,
      fsMissingSmall, fsTable, resourceDir, bind, Except.bind]
  refine ⟨?_, h, fun l hl => by rw [h] at hl; exact Except.noConfusion hl⟩
  simp [LinearWarp2D0TestLoad, loadBitmap, fsMissingSmall, fsTable,
    resourceDir, bind, Except.bind]

/-- C2 (amended): registry construction succeeds only when *both*
hierarchical-warp builders succeed; an error raised by `LinearWarp2D0Test`
propagates verbatim out of the registration statement (so no entry — not
even the non-image-backed ones — is registered by the failed module load),
and a successful construction registers exactly the full 35-entry table. -/
theorem C2_builder_error_propagates :
    ∀ fs : String → Option Dims,
      (okB (registryLoad fs) = (okB (LinearWarp2D0TestLoad fs) &&
        okB (LinearWarp2D2TestLoad fs))) ∧
      (∀ e, LinearWarp2D0TestLoad fs = .error e → registryLoad fs = .error e) ∧
      (∀ l, registryLoad fs = .ok l → l = DISTRIBUTIONS) := by
  intro fs
  unfold registryLoad
  cases h0 : LinearWarp2D0TestLoad fs <;>
    cases h2 : LinearWarp2D2TestLoad fs <;>
      simp [okB, Except.bind, bind, pure, Except.pure]

/-- Witness for the amended C2: at the file system missing `small.png`,
the propagated error is the construction's result. -/
theorem C2_builder_error_propagates_witness :
    registryLoad fsMissingSmall =
      .error (.fileNotFound (resourceDir ++ "small.png")) :=
  (C2_builder_error_propagates fsMissingSmall).2.1 _
    (by simp [LinearWarp2D0TestLoad, loadBitmap, fsMissingSmall, fsTable,
      resourceDir, bind, Except.bind])

/-- Counterexample to C8: four conditioned images whose dimensions do
*not* match — `img3.png` is `512 x 1` while the others are `512 x 512` —
do not make construction fail: the squeezed `[512]` column broadcasts
across the `512 x 512` tensor slice and `LinearWarp2D2Test` completes
successfully. -/
theorem C8_unequal_resolution_accepted_counterexample :
    fsMismatched (resourceDir ++ "img2.png") ≠ fsMismatched (resourceDir ++ "img3.png") ∧
    LinearWarp2D2TestLoad fsMismatched = .ok () := by
  constructor
  · simp [fsMismatched, fsTable, resourceDir]
  · simp [LinearWarp2D2TestLoad, loadBitmap, fsMismatched, fsTable, resourceDir,
      bind, Except.bind, assignSlice, squeeze, broadcastableTo]

/-- C8 (amended): the conditioned builder loads exactly four images and
writes them into the corners of a `2 x 2` parameter grid over `[0,1]^2`,
but the condition it enforces is *broadcast compatibility with the fixed
`512 x 512` slice*, not equality of the four resolutions: construction
succeeds exactly when every squeezed image shape broadcasts to
`(512, 512)` — so four equal images of any other resolution fail, while
certain unequal combinations (dimensions of size one) are accepted. -/
theorem C8_broadcast_characterizes_success :
    ∀ d0 d1 d2 d3 : Dims,
      okB (LinearWarp2D2TestLoad
        (fsTable (some [512, 512]) (some d0) (some d1) (some d2) (some d3))) =
      (broadcastableTo (squeeze d0) [512, 512] &&
       broadcastableTo (squeeze d1) [512, 512] &&
       broadcastableTo (squeeze d2) [512, 512] &&
       broadcastableTo (squeeze d3) [512, 512]) := by
  intro d0 d1 d2 d3
  simp only [LinearWarp2D2TestLoad, loadBitmap, fsTable, resourceDir, bind,
    Except.bind, assignSlice, String.reduceEq, String.reduceAppend, reduceIte]
  split_ifs <;> simp_all [okB]

/-- C7: for every entry of the table whose `(sample, density)` pair is
given directly (the twelve lambda- and warp-function-based entries), both
functions accept exactly as many extra positional arguments as the entry
declares parameters (any other count is an arity error), the entry exists
in the registry with that parameter count, and the two functions route
each positional argument through the *same* transform into the same slot
of the underlying warp invocation — so the positional order of the
arguments agrees between `sample` and `density` and with the declared
parameter list embedded in the definitions. -/
theorem C7_arity_matches_parameters :
    ∀ d ∈ directDistributions,
      (∃ e ∈ DISTRIBUTIONS, e.name = d.name ∧
        e.settings.parameters.length = d.nparams) ∧
      (∀ args : List ℚ,
        ((d.sampleFn args).isSome ↔ args.length = d.nparams) ∧
        ((d.pdfFn args).isSome ↔ args.length = d.nparams) ∧
        (d.sampleFn args).map WarpCall.extraArgs =
          (d.pdfFn args).map WarpCall.extraArgs) := by
  intro d hd
  fin_cases hd <;>
    refine ⟨by decide, ?_⟩ <;>
      (intro args; rcases args with _ | ⟨a, _ | ⟨b, _ | ⟨c, t⟩⟩⟩ <;>
        simp [uniformSquareSampleFn, uniformSquarePdfFn, bareWarp,
          uniformConeSampleFn, uniformConePdfFn, beckmannSampleFn, beckmannPdfFn,
          vonMisesFisherSampleFn, vonMisesFisherPdfFn, roughFiberSampleFn,
          roughFiberPdfFn])

/-- Witness for C7 at the `Uniform cone` entry with its single declared
parameter value `20`. -/
theorem C7_arity_matches_parameters_witness :
    ((directDistributions.get ⟨8, by decide⟩).sampleFn [20]).isSome = true :=
  (((C7_arity_matches_parameters (directDistributions.get ⟨8, by decide⟩)
      (List.get_mem directDistributions 8 (by decide))).2 [20]).1).mpr (by decide)

/-- C9: the Beckmann entry's sample and density lambdas map the
user-facing `Roughness` value `v` to the same internal roughness
`exp(log(0.05) * (1 - v) + log(1) * v) = 0.05 ^ (1 - v)`; for `v` in
`[0, 1]` that roughness lies in `[0.05, 1]`, and the declared default
`v = 0.6` yields a roughness strictly between `0.05` and `1`. -/
theorem C9_beckmann_roughness_mapping :
    (∀ v : ℝ, beckmannSampleAlpha v = beckmannPdfAlpha v ∧
      beckmannSampleAlpha v = (0.05 : ℝ) ^ (1 - v)) ∧
    (∀ v : ℝ, 0 ≤ v → v ≤ 1 →
      0.05 ≤ beckmannSampleAlpha v ∧ beckmannSampleAlpha v ≤ 1) ∧
    (0.05 < beckmannSampleAlpha 0.6 ∧ beckmannSampleAlpha 0.6 < 1) ∧
    (DISTRIBUTIONS.get ⟨9, by decide⟩).name = "Beckmann distribution" ∧
    (DISTRIBUTIONS.get ⟨9, by decide⟩).settings.parameters.map Param.default = [0.6] := by
  have key : ∀ v : ℝ, beckmannSampleAlpha v = (0.05 : ℝ) ^ (1 - v) := by
    intro v
    unfold beckmannSampleAlpha
    rw [Real.log_one, zero_mul, add_zero,
      Real.rpow_def_of_pos (show (0 : ℝ) < 0.05 by norm_num)]
  refine ⟨fun v => ⟨rfl, key v⟩, fun v h0 h1 => ?_, ?_, rfl, rfl⟩
  · rw [key v]
    constructor
    · calc (0.05 : ℝ) = 0.05 ^ (1 : ℝ) := (Real.rpow_one _).symm
        _ ≤ 0.05 ^ (1 - v) :=
          Real.rpow_le_rpow_of_exponent_ge (by norm_num) (by norm_num) (by linarith)
    · calc (0.05 : ℝ) ^ (1 - v) ≤ 0.05 ^ (0 : ℝ) :=
          Real.rpow_le_rpow_of_exponent_ge (by norm_num) (by norm_num) (by linarith)
        _ = 1 := Real.rpow_zero _
  · have h06 : beckmannSampleAlpha 0.6 = (0.05 : ℝ) ^ (0.4 : ℝ) := by
      rw [key]; norm_num
    rw [h06]
    constructor
    · calc (0.05 : ℝ) = 0.05 ^ (1 : ℝ) := (Real.rpow_one _).symm
        _ < 0.05 ^ (0.4 : ℝ) :=
          Real.rpow_lt_rpow_of_exponent_gt (by norm_num) (by norm_num) (by norm_num)
    · calc (0.05 : ℝ) ^ (0.4 : ℝ) < 0.05 ^ (0 : ℝ) :=
          Real.rpow_lt_rpow_of_exponent_gt (by norm_num) (by norm_num) (by norm_num)
        _ = 1 := Real.rpow_zero _

/-- Witness for C9 at the default roughness value `0.6`. -/
theorem C9_beckmann_roughness_mapping_witness :
    beckmannSampleAlpha 0.6 = beckmannPdfAlpha 0.6 ∧
    0.05 ≤ beckmannSampleAlpha 0.6 ∧ beckmannSampleAlpha 0.6 ≤ 1 :=
  ⟨(C9_beckmann_roughness_mapping.1 0.6).1,
   C9_beckmann_roughness_mapping.2.1 0.6 (by norm_num) (by norm_num)⟩

/-- C10: both hierarchical-warp builders return a sample functor that
yields exactly the first component (the warped position) of the underlying
distribution object's `sample` result — discarding the second component,
as witnessed by the functor's insensitivity to it — and a density functor
that returns the object's `eval` result directly; the registered sample
function's output is thus a position only, never a `(position, density)`
pair. -/
theorem C10_sample_functor_takes_first_component :
    (∀ (d : Linear2DDist) (s : ℚ × ℚ) (args : List ℚ),
      (LinearWarp2D0TestFns d).1 s args = (d.sample s args).1 ∧
      (LinearWarp2D0TestFns d).2 s args = d.eval s args ∧
      (LinearWarp2D2TestFns d).1 s args = (d.sample s args).1 ∧
      (LinearWarp2D2TestFns d).2 s args = d.eval s args) ∧
    (∀ d d' : Linear2DDist,
      (∀ s args, (d.sample s args).1 = (d'.sample s args).1) →
      ∀ s args,
        (LinearWarp2D0TestFns d).1 s args = (LinearWarp2D0TestFns d').1 s args ∧
        (LinearWarp2D2TestFns d).1 s args = (LinearWarp2D2TestFns d').1 s args) :=
  ⟨fun _d _s _args => ⟨rfl, rfl, rfl, rfl⟩,
   fun _d _d' h s args => ⟨h s args, h s args⟩⟩

/-- Witness for C10: two distributions agreeing on warped positions but
disagreeing on the discarded density component produce identical sample
functors. -/
theorem C10_sample_functor_takes_first_component_witness :
    (LinearWarp2D0TestFns distSecond7).1 (1, 2) [] =
      (LinearWarp2D0TestFns distSecond9).1 (1, 2) [] ∧
    (LinearWarp2D2TestFns distSecond7).1 (1, 2) [] =
      (LinearWarp2D2TestFns distSecond9).1 (1, 2) [] :=
  C10_sample_functor_takes_first_component.2 distSecond7 distSecond9
    (fun _s _args => rfl) (1, 2) []
